import Mathlib

/-!
Verification development for the ComfyUI workflow backend.

The Python sources under `app/` are shallowly embedded below:

* `app/api/workflows.py` — `replace_placeholders` (placeholder substitution)
  and `execute_workflow_with_inputs` (the execute endpoint);
* `app/api/callback.py` — the completion callback endpoint;
* `app/services/comfyui_service.py` — `ComfyUIService.execute_workflow`
  (dispatch to the external engine);
* `app/models/*.py` — the persisted records.

Python/JSON values are embedded as the inductive `PyVal`; Python `float`s are
modelled as exact rationals (plus infinities and NaN) — none of the verified
properties depend on IEEE rounding.  The database session is modelled as an
explicit state (`DBState`); `datetime.now()` becomes an explicit `now`
parameter, and the network call of the dispatch client becomes an explicit
oracle argument.  Fallible code returns `Except`.
-/

namespace CWB

/-- Python floating-point values.  Finite values are modelled as exact
rationals; the claims checked here do not depend on IEEE rounding. -/
inductive PyFloat where
  | finite (q : ℚ)
  | posInf
  | negInf
  | nan
deriving DecidableEq, Repr

/-- Python/JSON values as stored in the service's JSON columns and request
bodies.  Python dicts preserve insertion order, so a dict is an
insertion-ordered association list with unique keys (maintained by
`dictAssign`). -/
inductive PyVal where
  | pyNone
  | pyBool (b : Bool)
  | pyInt (n : Int)
  | pyFloat (f : PyFloat)
  | pyStr (s : String)
  | pyList (xs : List PyVal)
  | pyDict (kvs : List (String × PyVal))
deriving Repr

/-- Python dict assignment `d[k] = v`: updates the value in place if the key
exists (keeping its position), else appends. -/
def dictAssign (kvs : List (String × PyVal)) (k : String) (v : PyVal) :
    List (String × PyVal) :=
  if kvs.any (fun p => p.1 == k) then
    kvs.map (fun p => if p.1 == k then (k, v) else p)
  else
    kvs ++ [(k, v)]

/-- Python `d.get(k)` on a dict, returning `none` for a missing key. -/
def dictGet? (kvs : List (String × PyVal)) (k : String) : Option PyVal :=
  (kvs.find? (fun p => p.1 == k)).map (fun p => p.2)

/-- Python equality test `v == s` between an arbitrary value and a string
literal (values of other types are never equal to a string). -/
def isStrEq (v : PyVal) (s : String) : Bool :=
  match v with
  | .pyStr t => t == s
  | _ => false

/-- Python truthiness (`bool(v)`). -/
def pyTruthy : PyVal → Bool
  | .pyNone => false
  | .pyBool b => b
  | .pyInt n => n != 0
  | .pyFloat (.finite q) => q != 0
  | .pyFloat _ => true
  | .pyStr s => s != ""
  | .pyList xs => !xs.isEmpty
  | .pyDict kvs => !kvs.isEmpty

/-- Replacement core for Python `str.replace` with a non-empty pattern
`p :: ps`: scan left to right, replacing each (non-overlapping) occurrence
of the pattern by `rep`.  The structural `fuel` only bounds the recursion
(every step consumes at least one character, so `fuel = s.length` is always
enough). -/
def replaceNE (p : Char) (ps rep : List Char) : Nat → List Char → List Char
  | 0, _ => []
  | _ + 1, [] => []
  | fuel + 1, c :: rest =>
    if (p :: ps).isPrefixOf (c :: rest) then
      rep ++ replaceNE p ps rep fuel (rest.drop ps.length)
    else
      c :: replaceNE p ps rep fuel rest

/-- Python `s.replace(pat, rep)` (all non-overlapping occurrences; an empty
pattern inserts `rep` before every character and at the end, as in CPython). -/
def pyReplace (s pat rep : String) : String :=
  match pat.toList with
  | [] => String.mk (rep.toList ++ s.toList.flatMap (fun c => c :: rep.toList))
  | p :: ps => String.mk (replaceNE p ps rep.toList s.toList.length s.toList)

/-- ASCII whitespace stripped by Python's `int()` / `float()` conversions
(unicode whitespace beyond ASCII is not modelled). -/
def isPySpace (c : Char) : Bool :=
  c == ' ' || c == '\t' || c == '\n' || c == '\r' || c == '\x0b' || c == '\x0c'

/-- Strip leading and trailing whitespace. -/
def pyStrip (l : List Char) : List Char :=
  ((l.dropWhile isPySpace).reverse.dropWhile isPySpace).reverse

/-- No two consecutive underscores. -/
def noDoubleUnderscore : List Char → Bool
  | [] => true
  | [_] => true
  | a :: b :: rest => !(a == '_' && b == '_') && noDoubleUnderscore (b :: rest)

/-- A valid CPython digit group: nonempty, ASCII digits with single
underscores strictly between digits (as accepted by `int()` / `float()`). -/
def digitsUValid (l : List Char) : Bool :=
  match l, l.getLast? with
  | [], _ => false
  | _ :: _, Option.none => false
  | c :: _, some d =>
      c.isDigit && d.isDigit && l.all (fun x => x.isDigit || x == '_') &&
        noDoubleUnderscore l

/-- Remove underscores from a digit group. -/
def stripU (l : List Char) : List Char := l.filter (fun c => c != '_')

/-- Decimal value of a digit list. -/
def digitsVal (l : List Char) : Nat :=
  l.foldl (fun a c => a * 10 + (c.toNat - 48)) 0

/-- Python `int(s)` on a string: strip whitespace, optional sign, decimal
digits (ASCII modelled) with underscores between digits; `none` models the
`ValueError` raised on any other input. -/
def pyParseIntChars (l : List Char) : Option Int :=
  let l := pyStrip l
  let signBody : Int × List Char :=
    match l with
    | '+' :: rest => (1, rest)
    | '-' :: rest => (-1, rest)
    | _ => (1, l)
  if digitsUValid signBody.2 then
    some (signBody.1 * (digitsVal (stripU signBody.2) : Int))
  else
    Option.none

/-- Exponent part of a float literal: optional sign and a digit group. -/
def parseExpChars (l : List Char) : Option Int :=
  let signBody : Int × List Char :=
    match l with
    | '+' :: rest => (1, rest)
    | '-' :: rest => (-1, rest)
    | _ => (1, l)
  if digitsUValid signBody.2 then
    some (signBody.1 * (digitsVal (stripU signBody.2) : Int))
  else
    Option.none

/-- Mantissa of a float literal (`ip`, `ip.`, `.fp`, or `ip.fp`), as an exact
rational. -/
def parseMantissaChars (l : List Char) : Option ℚ :=
  match l.splitOn '.' with
  | [ip] =>
    if digitsUValid ip then some ((digitsVal (stripU ip) : ℚ)) else Option.none
  | [ip, fp] =>
    if (ip.isEmpty || digitsUValid ip) && (fp.isEmpty || digitsUValid fp) &&
        !(ip.isEmpty && fp.isEmpty) then
      let f := stripU fp
      some ((digitsVal (stripU ip) : ℚ) + (digitsVal f : ℚ) / (10 : ℚ) ^ f.length)
    else Option.none
  | _ => Option.none

/-- Python `float(s)` on a string: strip whitespace, optional sign, then
`inf`/`infinity`/`nan` (case-insensitive) or a decimal literal with optional
exponent; `none` models the `ValueError` raised otherwise.  Finite values are
exact rationals. -/
def pyParseFloatChars (l : List Char) : Option PyFloat :=
  let l := pyStrip l
  let signBody : Bool × List Char :=
    match l with
    | '+' :: rest => (false, rest)
    | '-' :: rest => (true, rest)
    | _ => (false, l)
  let neg := signBody.1
  let lower := signBody.2.map Char.toLower
  if lower == "inf".toList || lower == "infinity".toList then
    some (if neg then .negInf else .posInf)
  else if lower == "nan".toList then
    some .nan
  else
    match lower.splitOn 'e' with
    | [mant] =>
      (parseMantissaChars mant).map (fun q =>
        .finite (if neg then -q else q))
    | [mant, ex] =>
      match parseMantissaChars mant, parseExpChars ex with
      | some q, some e =>
        let v := q * (10 : ℚ) ^ e
        some (.finite (if neg then -v else v))
      | _, _ => Option.none
    | _ => Option.none

/-- Fractional decimal digits of `rem / den`, up to `fuel` digits or until the
expansion terminates. -/
def fracDigitChars : Nat → Nat → Nat → List Char
  | 0, _, _ => []
  | _ + 1, 0, _ => []
  | fuel + 1, rem, den =>
    let r10 := rem * 10
    Char.ofNat (48 + r10 / den) :: fracDigitChars fuel (r10 % den) den

/-- Python `repr` of a float, rendered as a plain decimal from the exact
rational model (Python's shortest-roundtrip repr coincides with this on
decimal-entered values; the scientific-notation regime for very large/small
magnitudes is not modelled, and non-terminating expansions are cut at 17
digits). -/
def floatRepr : PyFloat → String
  | .posInf => "inf"
  | .negInf => "-inf"
  | .nan => "nan"
  | .finite q =>
    let sgn := if q < 0 then "-" else ""
    let n := q.num.natAbs
    let d := q.den
    let frac := fracDigitChars 17 (n % d) d
    sgn ++ toString (n / d) ++ "." ++ (if frac.isEmpty then "0" else String.mk frac)

/-- Lowercase hexadecimal digit. -/
def hexDigit (n : Nat) : Char :=
  if n < 10 then Char.ofNat (48 + n) else Char.ofNat (87 + n)

/-- Python `repr` of a string: single quotes unless the string contains a
single quote and no double quote; `\\`, the quote character, newline, carriage
return and tab get short escapes, other control characters get `\xhh`. -/
def pyStrQuote (s : String) : String :=
  let l := s.toList
  let useDouble := l.contains '\'' && !(l.contains '"')
  let q : Char := if useDouble then '"' else '\''
  let esc := l.flatMap (fun c =>
    if c == '\\' then ['\\', '\\']
    else if c == q then ['\\', q]
    else if c == '\n' then ['\\', 'n']
    else if c == '\r' then ['\\', 'r']
    else if c == '\t' then ['\\', 't']
    else if c.toNat < 32 || c.toNat == 127 then
      ['\\', 'x', hexDigit (c.toNat / 16), hexDigit (c.toNat % 16)]
    else [c])
  String.mk (q :: (esc ++ [q]))

mutual

/-- Python `str(v)`. -/
def pyStrOf : PyVal → String
  | .pyNone => "None"
  | .pyBool true => "True"
  | .pyBool false => "False"
  | .pyInt n => toString n
  | .pyFloat f => floatRepr f
  | .pyStr s => s
  | .pyList xs => "[" ++ reprListItems xs ++ "]"
  | .pyDict kvs => "\x7b" ++ reprDictItems kvs ++ "\x7d"

/-- Python `repr(v)`. -/
def pyReprOf : PyVal → String
  | .pyNone => "None"
  | .pyBool true => "True"
  | .pyBool false => "False"
  | .pyInt n => toString n
  | .pyFloat f => floatRepr f
  | .pyStr s => pyStrQuote s
  | .pyList xs => "[" ++ reprListItems xs ++ "]"
  | .pyDict kvs => "\x7b" ++ reprDictItems kvs ++ "\x7d"

/-- Comma-separated `repr`s of list items. -/
def reprListItems : List PyVal → String
  | [] => ""
  | [x] => pyReprOf x
  | x :: y :: rest => pyReprOf x ++ ", " ++ reprListItems (y :: rest)

/-- Comma-separated `repr(k): repr(v)` pairs of a dict. -/
def reprDictItems : List (String × PyVal) → String
  | [] => ""
  | [(k, v)] => pyStrQuote k ++ ": " ++ pyReprOf v
  | (k, v) :: p :: rest =>
    pyStrQuote k ++ ": " ++ pyReprOf v ++ ", " ++ reprDictItems (p :: rest)

end

/-- Four lowercase hex digits. -/
def hex4 (n : Nat) : List Char :=
  [hexDigit (n / 4096 % 16), hexDigit (n / 256 % 16), hexDigit (n / 16 % 16),
   hexDigit (n % 16)]

/-- Escaping of one character by `json.dumps` with `ensure_ascii=False`:
`"` and `\\` are escaped, control characters get their short escape or
`\u00xx`, everything else (including non-ASCII) passes through. -/
def jsonEscapeChar (c : Char) : List Char :=
  if c == '"' then ['\\', '"']
  else if c == '\\' then ['\\', '\\']
  else if c == '\n' then ['\\', 'n']
  else if c == '\t' then ['\\', 't']
  else if c == '\r' then ['\\', 'r']
  else if c == '\x08' then ['\\', 'b']
  else if c == '\x0c' then ['\\', 'f']
  else if c.toNat < 32 then '\\' :: 'u' :: hex4 c.toNat
  else [c]

/-- A JSON string literal for `s`. -/
def jsonQuote (s : String) : String :=
  String.mk ('"' :: (s.toList.flatMap jsonEscapeChar ++ ['"']))

mutual

/-- `json.dumps(v, ensure_ascii=False)` with the default separators
`", "` and `": "`; dict entries are emitted in insertion order, and the
non-standard `Infinity`/`-Infinity`/`NaN` literals are produced as in
CPython. -/
def pyJsonDumps : PyVal → String
  | .pyNone => "null"
  | .pyBool true => "true"
  | .pyBool false => "false"
  | .pyInt n => toString n
  | .pyFloat (.finite q) => floatRepr (.finite q)
  | .pyFloat .posInf => "Infinity"
  | .pyFloat .negInf => "-Infinity"
  | .pyFloat .nan => "NaN"
  | .pyStr s => jsonQuote s
  | .pyList xs => "[" ++ dumpsListItems xs ++ "]"
  | .pyDict kvs => "\x7b" ++ dumpsDictItems kvs ++ "\x7d"

/-- Comma-separated serializations of array elements. -/
def dumpsListItems : List PyVal → String
  | [] => ""
  | [x] => pyJsonDumps x
  | x :: y :: rest => pyJsonDumps x ++ ", " ++ dumpsListItems (y :: rest)

/-- Comma-separated `"k": v` serializations of object members. -/
def dumpsDictItems : List (String × PyVal) → String
  | [] => ""
  | [(k, v)] => jsonQuote k ++ ": " ++ pyJsonDumps v
  | (k, v) :: p :: rest =>
    jsonQuote k ++ ": " ++ pyJsonDumps v ++ ", " ++ dumpsDictItems (p :: rest)

end

/-- JSON whitespace skipped by the CPython decoder. -/
def skipWs (l : List Char) : List Char :=
  l.dropWhile (fun c => c == ' ' || c == '\t' || c == '\n' || c == '\r')

/-- Value of a hex digit, if any. -/
def hexVal? (c : Char) : Option Nat :=
  if '0' ≤ c && c ≤ '9' then some (c.toNat - 48)
  else if 'a' ≤ c && c ≤ 'f' then some (c.toNat - 87)
  else if 'A' ≤ c && c ≤ 'F' then some (c.toNat - 55)
  else Option.none

/-- Parse exactly four hex digits. -/
def parseHex4 : List Char → Option (Nat × List Char)
  | a :: b :: c :: d :: rest =>
    match hexVal? a, hexVal? b, hexVal? c, hexVal? d with
    | some va, some vb, some vc, some vd =>
      some (va * 4096 + vb * 256 + vc * 16 + vd, rest)
    | _, _, _, _ => Option.none
  | _ => Option.none

/-- Body of a JSON string literal after the opening quote, returning the
decoded characters and the input after the closing quote.  `\uXXXX` escapes
denoting surrogate code units (which Lean's `Char` cannot carry) are decoded
to U+FFFD. -/
def parseStringBody : Nat → List Char → Option (List Char × List Char)
  | 0, _ => Option.none
  | _ + 1, [] => Option.none
  | fuel + 1, c :: rest =>
    if c == '"' then some ([], rest)
    else if c == '\\' then
      match rest with
      | [] => Option.none
      | e :: rest' =>
        let dec : Option (Char × List Char) :=
          if e == '"' then some ('"', rest')
          else if e == '\\' then some ('\\', rest')
          else if e == '/' then some ('/', rest')
          else if e == 'b' then some ('\x08', rest')
          else if e == 'f' then some ('\x0c', rest')
          else if e == 'n' then some ('\n', rest')
          else if e == 'r' then some ('\r', rest')
          else if e == 't' then some ('\t', rest')
          else if e == 'u' then
            (parseHex4 rest').map (fun p =>
              (if h : p.1.isValidChar then Char.ofNatAux p.1 h else '�', p.2))
          else Option.none
        match dec with
        | some (ch, rest'') =>
          (parseStringBody fuel rest'').map (fun p => (ch :: p.1, p.2))
        | Option.none => Option.none
    else if c.toNat < 32 then Option.none
    else (parseStringBody fuel rest).map (fun p => (c :: p.1, p.2))

/-- A JSON number at the head of the input, per the CPython decoder's grammar
`-? (0 | [1-9][0-9]*) (.[0-9]+)? ([eE][-+]?[0-9]+)?`; an integer literal
yields a Python `int`, otherwise a `float`. -/
def parseJsonNumber (l : List Char) : Option (PyVal × List Char) :=
  let signSplit : Bool × List Char :=
    match l with
    | '-' :: r => (true, r)
    | _ => (false, l)
  let neg := signSplit.1
  let ipSplit : Option (List Char × List Char) :=
    match signSplit.2 with
    | '0' :: r => some (['0'], r)
    | c :: r =>
      if c.isDigit then some (c :: r.takeWhile Char.isDigit, r.dropWhile Char.isDigit)
      else Option.none
    | [] => Option.none
  match ipSplit with
  | Option.none => Option.none
  | some (ip, r1) =>
    let fracSplit : Option (List Char) × List Char :=
      match r1 with
      | '.' :: rr =>
        let ds := rr.takeWhile Char.isDigit
        if ds.isEmpty then (Option.none, r1) else (some ds, rr.dropWhile Char.isDigit)
      | _ => (Option.none, r1)
    let expSplit : Option Int × List Char :=
      match fracSplit.2 with
      | e :: rr =>
        if e == 'e' || e == 'E' then
          let se : Int × List Char :=
            match rr with
            | '+' :: x => (1, x)
            | '-' :: x => (-1, x)
            | _ => (1, rr)
          let ds := se.2.takeWhile Char.isDigit
          if ds.isEmpty then (Option.none, fracSplit.2)
          else (some (se.1 * (digitsVal ds : Int)), se.2.dropWhile Char.isDigit)
        else (Option.none, fracSplit.2)
      | [] => (Option.none, fracSplit.2)
    match fracSplit.1, expSplit.1 with
    | Option.none, Option.none =>
      let v : Int := digitsVal ip
      some (.pyInt (if neg then -v else v), r1)
    | fd, ex =>
      let fracPart : ℚ :=
        match fd with
        | some ds => (digitsVal ds : ℚ) / (10 : ℚ) ^ ds.length
        | Option.none => 0
      let e : Int := (ex.getD 0)
      let v : ℚ := ((digitsVal ip : ℚ) + fracPart) * (10 : ℚ) ^ e
      some (.pyFloat (.finite (if neg then -v else v)), expSplit.2)

mutual

/-- One JSON value at the head of the (already whitespace-skipped) input,
per the CPython decoder: strings, objects, arrays, the literal names
(including CPython's `NaN`/`Infinity`/`-Infinity`), and numbers.  `fuel`
only bounds recursion; `pyJsonLoads` supplies enough of it. -/
def parseVal : Nat → List Char → Option (PyVal × List Char)
  | 0, _ => Option.none
  | fuel + 1, l =>
    match l with
    | [] => Option.none
    | c :: rest =>
      if c == '"' then
        (parseStringBody (rest.length + 1) rest).map (fun p =>
          (.pyStr (String.mk p.1), p.2))
      else if c == '\x7b' then
        parseObjFirst fuel (skipWs rest)
      else if c == '[' then
        parseArrFirst fuel (skipWs rest)
      else if ("true".toList).isPrefixOf l then some (.pyBool true, l.drop 4)
      else if ("false".toList).isPrefixOf l then some (.pyBool false, l.drop 5)
      else if ("null".toList).isPrefixOf l then some (.pyNone, l.drop 4)
      else if ("NaN".toList).isPrefixOf l then some (.pyFloat .nan, l.drop 3)
      else if ("Infinity".toList).isPrefixOf l then some (.pyFloat .posInf, l.drop 8)
      else if ("-Infinity".toList).isPrefixOf l then some (.pyFloat .negInf, l.drop 9)
      else parseJsonNumber l

/-- Array body after `[` (whitespace already skipped). -/
def parseArrFirst : Nat → List Char → Option (PyVal × List Char)
  | 0, _ => Option.none
  | fuel + 1, l =>
    match l with
    | ']' :: rest => some (.pyList [], rest)
    | _ => parseArrItems fuel l []

/-- Array elements separated by commas, up to `]`. -/
def parseArrItems : Nat → List Char → List PyVal → Option (PyVal × List Char)
  | 0, _, _ => Option.none
  | fuel + 1, l, acc =>
    match parseVal fuel l with
    | Option.none => Option.none
    | some (v, rest) =>
      match skipWs rest with
      | ',' :: r => parseArrItems fuel (skipWs r) (acc ++ [v])
      | ']' :: r => some (.pyList (acc ++ [v]), r)
      | _ => Option.none

/-- Object body after the opening brace (whitespace already skipped). -/
def parseObjFirst : Nat → List Char → Option (PyVal × List Char)
  | 0, _ => Option.none
  | fuel + 1, l =>
    match l with
    | '\x7d' :: rest => some (.pyDict [], rest)
    | _ => parseObjItems fuel l []

/-- Object members `"k": v` separated by commas, up to the closing brace;
duplicate keys behave as repeated dict assignment (last value wins), as in
CPython. -/
def parseObjItems : Nat → List Char → List (String × PyVal) →
    Option (PyVal × List Char)
  | 0, _, _ => Option.none
  | fuel + 1, l, acc =>
    match l with
    | '"' :: rest =>
      match parseStringBody (rest.length + 1) rest with
      | Option.none => Option.none
      | some (k, r1) =>
        match skipWs r1 with
        | ':' :: r2 =>
          match parseVal fuel (skipWs r2) with
          | Option.none => Option.none
          | some (v, r3) =>
            let acc2 := dictAssign acc (String.mk k) v
            match skipWs r3 with
            | ',' :: r4 =>
              match skipWs r4 with
              | '"' :: r5 => parseObjItems fuel ('"' :: r5) acc2
              | _ => Option.none
            | '\x7d' :: r4 => some (.pyDict acc2, r4)
            | _ => Option.none
        | _ => Option.none
    | _ => Option.none

end

/-- `json.loads(s)`: parse one JSON document with nothing but whitespace
around it.  The CPython error messages carry positions
(e.g. `Expecting value: line 1 column 5 (char 4)`); the model keeps only the
message kind. -/
def pyJsonLoads (s : String) : Except String PyVal :=
  let l := skipWs s.toList
  match parseVal (3 * l.length + 16) l with
  | Option.none => .error "Expecting value"
  | some (v, rest) =>
    if (skipWs rest).isEmpty then .ok v else .error "Extra data"

example :
    pyJsonLoads "\x7b\"a\": [1, -2, null, true], \"b\": \"x\"\x7d" =
      .ok (.pyDict [("a", .pyList [.pyInt 1, .pyInt (-2),
        .pyNone, .pyBool true]), ("b", .pyStr "x")]) := by
  rfl

/-- Python exceptions raised by the embedded handlers: FastAPI's
`HTTPException(status_code, detail)`, a plain `Exception(msg)`, and
`AttributeError`.  FastAPI turns an uncaught non-HTTP exception into a
500 response. -/
inductive PyExc where
  | http (status_code : Nat) (detail : String)
  | exc (msg : String)
  | attrError (msg : String)
deriving DecidableEq, Repr

/-- Python `str(e)` of an exception (`HTTPException.__str__` renders
`"{code}: {detail}"`; plain exceptions render their message). -/
def pyStrExc : PyExc → String
  | .http code detail => toString code ++ ": " ++ detail
  | .exc m => m
  | .attrError m => m

/-- Python `int(v)` (truncation toward zero for finite floats; `none` models
the `ValueError`/`TypeError` raised on strings that do not parse, on NaN and
on non-numeric values — the infinite-float `OverflowError`, which the source
does *not* catch, is handled separately in `coerceValue`). -/
def pyIntOf : PyVal → Option Int
  | .pyInt n => some n
  | .pyBool b => some (if b then 1 else 0)
  | .pyFloat (.finite q) => some (if 0 ≤ q then ⌊q⌋ else -⌊-q⌋)
  | .pyFloat _ => Option.none
  | .pyStr s => pyParseIntChars s.toList
  | _ => Option.none

/-- Python `float(v)`; `none` models the `ValueError`/`TypeError` raised on
unparsable strings and non-numeric values. -/
def pyFloatOf : PyVal → Option PyFloat
  | .pyFloat f => some f
  | .pyInt n => some (.finite n)
  | .pyBool b => some (.finite (if b then 1 else 0))
  | .pyStr s => pyParseFloatChars s.toList
  | _ => Option.none

/-- The type-directed value conversion inside `replace_placeholders`
(`app/api/workflows.py`): for `number`, `int(value) if value else 0` with
`ValueError`/`TypeError` coerced to `0` — an infinite float raises an
`OverflowError` that the source does not catch; for `float`,
`float(value) if value else 0.0` with failures coerced to `0.0`; for
`text`/`textarea`/`select`, `str(value) if value is not None else ''`;
any other type tag leaves the value unchanged. -/
def coerceValue (field_type value : PyVal) : Except PyExc PyVal :=
  if isStrEq field_type "number" then
    if pyTruthy value then
      match value with
      | .pyFloat .posInf => .error (.exc "cannot convert float infinity to integer")
      | .pyFloat .negInf => .error (.exc "cannot convert float infinity to integer")
      | v => .ok (.pyInt ((pyIntOf v).getD 0))
    else .ok (.pyInt 0)
  else if isStrEq field_type "float" then
    .ok (.pyFloat (if pyTruthy value then (pyFloatOf value).getD (.finite 0) else .finite 0))
  else if isStrEq field_type "text" || isStrEq field_type "textarea" ||
      isStrEq field_type "select" then
    .ok (.pyStr (match value with
      | .pyNone => ""
      | v => pyStrOf v))
  else
    .ok value

/-- One iteration of the replacement loop of `replace_placeholders`:
resolve `input_values.get(placeholder, field_config.get('defaultValue', ''))`,
coerce by `field_config.get('type', 'text')`, then replace the quoted token
`"placeholder"` by `str(value)` for numeric types, and the bare token
`placeholder` by `str(value)` for all other types. -/
def replaceStep1 (input_values : List (String × PyVal)) (s : String)
    (pf : String × List (String × PyVal)) : Except PyExc String :=
  let placeholder := pf.1
  let field_config := pf.2
  let rawValue := (dictGet? input_values placeholder).getD
      ((dictGet? field_config "defaultValue").getD (.pyStr ""))
  let field_type := (dictGet? field_config "type").getD (.pyStr "text")
  (coerceValue field_type rawValue).map (fun value =>
    if isStrEq field_type "number" || isStrEq field_type "float" then
      pyReplace s ("\"" ++ placeholder ++ "\"") (pyStrOf value)
    else
      pyReplace s placeholder (pyStrOf value))

/-- The serialized text produced by `replace_placeholders` just before the
final `json.loads`: `json.dumps(workflow_data, ensure_ascii=False)` with every
placeholder replaced in `field_configs` iteration order. -/
def substitutedText (workflow_data : PyVal)
    (field_configs : List (String × List (String × PyVal)))
    (input_values : List (String × PyVal)) : Except PyExc String :=
  field_configs.foldl (fun acc pf => acc.bind (fun s => replaceStep1 input_values s pf))
    (.ok (pyJsonDumps workflow_data))

/-- `replace_placeholders(workflow_data, field_configs, input_values)` from
`app/api/workflows.py`: textual substitution on the serialized template, then
`json.loads`; a deserialization failure raises
`HTTPException(400, "Failed to process workflow data: ...")`. -/
def replace_placeholders (workflow_data : PyVal)
    (field_configs : List (String × List (String × PyVal)))
    (input_values : List (String × PyVal)) : Except PyExc PyVal :=
  match substitutedText workflow_data field_configs input_values with
  | .error e => .error e
  | .ok s =>
    match pyJsonLoads s with
    | .ok v => .ok v
    | .error e => .error (.http 400 ("Failed to process workflow data: " ++ e))

/-- `ComfyUIService.execute_workflow` (`app/services/comfyui_service.py`):
serialize the graph, textually substitute the reserved `[uuid]` and
`[execution_id]` tokens, re-parse (a `JSONDecodeError` here propagates,
being outside the `try`), then submit to the engine.  The network
interaction (`requests.post` + `raise_for_status` + `response.json()["prompt_id"]`)
is the oracle `network`, returning the engine-assigned `prompt_id` or the
message of the exception it raised; any such exception is re-raised as
`Exception("ComfyUI API 호출 실패: ...")`.  On success the returned result dict
carries `status = "pending"` and the `prompt_id`. -/
def ComfyUIService.execute_workflow (client_id : String)
    (network : PyVal → String → Except String String)
    (execution_id : Nat) (workflow_data : PyVal) : Except PyExc PyVal :=
  let s0 := pyJsonDumps workflow_data
  let s1 := pyReplace s0 "[uuid]" client_id
  let s2 := pyReplace s1 "[execution_id]" (toString execution_id)
  match pyJsonLoads s2 with
  | .error e => .error (.exc e)
  | .ok wd =>
    match network wd client_id with
    | .error e => .error (.exc ("ComfyUI API 호출 실패: " ++ e))
    | .ok prompt_id =>
      .ok (.pyDict [("status", .pyStr "pending"), ("prompt_id", .pyStr prompt_id),
        ("execution_id", .pyInt execution_id),
        ("message", .pyStr "워크플로우 실행 요청하였습니다.")])

/-- One row of the `executions` table (`app/models/execution.py`).  Timestamps
are abstract instants (`Nat`); `comfyui_prompt_id` holds the Python value
assigned to the column. -/
structure ExecutionRec where
  id : Nat
  workflow_id : Nat
  user_id : Nat
  status : String
  comfyui_prompt_id : Option PyVal := Option.none
  input_data : Option PyVal := Option.none
  output_data : Option PyVal := Option.none
  error_message : Option String := Option.none
  started_at : Option Nat := Option.none
  completed_at : Option Nat := Option.none
deriving Repr

/-- One row of the `assets` table (`app/models/asset.py`); `image_url` is
nullable and holds the value passed to the `Asset` constructor. -/
structure AssetRec where
  id : Nat
  execution_id : Nat
  image_url : Option PyVal
deriving Repr

/-- One row of the `workflows` table (`app/models/workflow.py`).  Note that
the model has *no* `role` column or attribute. -/
structure WorkflowRec where
  id : Nat
  name : String := ""
  description : String := ""
  workflow_data : PyVal
  input_fields : Option (List (String × List (String × PyVal))) := Option.none
  status : String := "WAIT"
  user_id : Nat
deriving Repr

/-- The requester.  `app/models/user.py` is not among the sources; the two
attributes the embedded handlers consume (`id`, `role`) are modelled from
their uses and the spec's requester/ownership vocabulary. -/
structure UserRec where
  id : Nat
  role : String
deriving DecidableEq, Repr

/-- The record store: the tables the embedded handlers touch plus the
autoincrement counters. -/
structure DBState where
  workflows : List WorkflowRec := []
  executions : List ExecutionRec := []
  assets : List AssetRec := []
  nextExecutionId : Nat := 1
  nextAssetId : Nat := 1
deriving Repr

/-- The success body of the callback endpoint. -/
structure CallbackResponse where
  status : String
  message : String
  execution_id : Nat
  images_count : Nat
  assets_added : Nat
deriving DecidableEq, Repr

/-- The callback endpoint (`app/api/callback.py`): look the execution up by
id (404 if absent, leaving the store untouched); otherwise *unconditionally*
set `status = "completed"` and `completed_at = now`, insert one `Asset` row
per element of `images` with `image_url = image.get("image")`, and report
`images_count = assets_added = len(images)`.  A missing body defaults to an
empty image list.  `Asset(...)` construction cannot fail, so the
`assets_added` counter always ends at `len(images)`; the commit is modelled
as succeeding (the rollback-on-commit-failure path is the spec's
`PersistenceError`, not exercised by the claims below). -/
def callback (execution_id : Nat)
    (request : Option (List (List (String × PyVal))))
    (db : DBState) (now : Nat) : DBState × Except PyExc CallbackResponse :=
  match db.executions.find? (fun e => e.id == execution_id) with
  | Option.none =>
    (db, .error (.http 404 ("Execution ID " ++ toString execution_id ++
      "를 찾을 수 없습니다.")))
  | some _ =>
    let images := request.getD []
    let upd := fun (e : ExecutionRec) =>
      if e.id == execution_id then
        { e with status := "completed", completed_at := some now }
      else e
    let newAssets : List AssetRec := images.enum.map (fun p =>
      { id := db.nextAssetId + p.1, execution_id := execution_id,
        image_url := dictGet? p.2 "image" })
    ({ db with executions := db.executions.map upd,
               assets := db.assets ++ newAssets,
               nextAssetId := db.nextAssetId + images.length },
     .ok { status := "success",
           message := "Execution " ++ toString execution_id ++ " 완료 처리 및 " ++
             toString images.length ++ "개 이미지 저장 완료",
           execution_id := execution_id,
           images_count := images.length,
           assets_added := images.length })

/-- The body of `POST /workflows/execute`. -/
structure WorkflowExecuteRequest where
  workflow_id : Nat
  input_values : Option (List (String × PyVal)) := some []
deriving Repr

/-- The success body of the execute endpoint. -/
structure ExecResponse where
  message : String
  execution_id : Nat
  status : String
  result : PyVal
  processed_workflow_data : PyVal
  original_placeholders : List String
  applied_values : Option (List (String × PyVal))
deriving Repr

/-- `.get(k)` on a dict value (`none` for a missing key or a non-dict). -/
def pyValGet (v : PyVal) (k : String) : Option PyVal :=
  match v with
  | .pyDict kvs => dictGet? kvs k
  | _ => Option.none

/-- `execute_workflow_with_inputs` (`app/api/workflows.py`), the execute
endpoint: look the workflow up (404 if absent); then the source guard
`if workflow.status != "OPEN" and workflow.role == "user"` evaluates
`workflow.role` on a model with no such attribute, so every non-`OPEN`
workflow raises `AttributeError` (surfaced by FastAPI as a 500) before any
ExecutionRecord is created.  For an `OPEN` workflow a `pending` record is
created and committed, placeholders are substituted, the graph is dispatched,
and the record is updated from the result dict; any exception in that block
marks the record `failed` (with `error_message = str(e)`,
`completed_at = now`) and re-raises as
`HTTPException(500, "Workflow execution failed: ...")`. -/
def execute_workflow_with_inputs (execute_request : WorkflowExecuteRequest)
    (current_user : UserRec) (db : DBState) (now : Nat) (client_id : String)
    (network : PyVal → String → Except String String) :
    DBState × Except PyExc ExecResponse :=
  match db.workflows.find? (fun w => w.id == execute_request.workflow_id) with
  | Option.none => (db, .error (.http 404 "Workflow not found"))
  | some workflow =>
    if workflow.status != "OPEN" then
      (db, .error (.attrError "'Workflow' object has no attribute 'role'"))
    else
      let new_execution : ExecutionRec :=
        { id := db.nextExecutionId,
          workflow_id := execute_request.workflow_id,
          user_id := current_user.id,
          status := "pending",
          input_data := execute_request.input_values.map .pyDict,
          started_at := some now }
      let db1 := { db with executions := db.executions ++ [new_execution],
                           nextExecutionId := db.nextExecutionId + 1 }
      let attempt : Except PyExc (PyVal × PyVal) :=
        (replace_placeholders workflow.workflow_data (workflow.input_fields.getD [])
            (execute_request.input_values.getD [])).bind (fun processed =>
          (ComfyUIService.execute_workflow client_id network new_execution.id
              processed).map (fun result => (processed, result)))
      match attempt with
      | .error e =>
        let upd := fun (ex : ExecutionRec) =>
          if ex.id == new_execution.id then
            { ex with status := "failed", error_message := some (pyStrExc e),
                      completed_at := some now }
          else ex
        ({ db1 with executions := db1.executions.map upd },
         .error (.http 500 ("Workflow execution failed: " ++ pyStrExc e)))
      | .ok (processed, result) =>
        let result_status := (pyValGet result "status").getD (.pyStr "completed")
        let statusStr := pyStrOf result_status
        let promptId := (pyValGet result "prompt_id").getD .pyNone
        let errFlag := isStrEq ((pyValGet result "status").getD .pyNone) "failed" ||
          isStrEq ((pyValGet result "status").getD .pyNone) "timeout"
        let upd := fun (ex : ExecutionRec) =>
          if ex.id == new_execution.id then
            let ex1 := { ex with status := statusStr, output_data := some result,
                                 completed_at := some now }
            let ex2 := if pyTruthy promptId then
                { ex1 with comfyui_prompt_id := some promptId }
              else ex1
            if errFlag then
              { ex2 with error_message := some (pyStrOf ((pyValGet result "error").getD (.pyStr "Unknown error"))) }
            else ex2
          else ex
        ({ db1 with executions := db1.executions.map upd },
         .ok { message := "Workflow executed successfully",
               execution_id := new_execution.id,
               status := statusStr,
               result := result,
               processed_workflow_data := processed,
               original_placeholders := (workflow.input_fields.getD []).map (fun p => p.1),
               applied_values := execute_request.input_values })

/-- The terminal statuses of an ExecutionRecord (spec §4.3 / glossary). -/
def terminalStatuses : List String := ["completed", "failed", "timeout"]

/-- The value kinds of a FieldSpec (spec §3). -/
inductive FieldKind where
  | text
  | number
  | float
  | select
  | textarea
deriving DecidableEq, Repr

/-- A FieldSpec (spec §3): a placeholder's expected value kind and default. -/
structure FieldSpec where
  kind : FieldKind
  defaultValue : PyVal
deriving Repr

/-- Whether a kind is numeric — the axis of §4.1's replacement asymmetry. -/
def FieldKind.isNumeric : FieldKind → Bool
  | .number => true
  | .float => true
  | _ => false

/-- Spec-side coercion, written from §4.1's words: `number`: parse as
integer, on failure or empty coerce to `0`; `float`: parse as floating point,
on failure or empty coerce to `0.0`; textual kinds: stringify, null → empty
string. -/
def specCoerce : FieldKind → PyVal → PyVal
  | .number, v =>
    .pyInt (match v with
      | .pyInt n => n
      | .pyStr s => if s = "" then 0 else (pyParseIntChars s.toList).getD 0
      | _ => 0)
  | .float, v =>
    .pyFloat (match v with
      | .pyFloat f => f
      | .pyInt n => .finite n
      | .pyStr s =>
        if s = "" then .finite 0 else (pyParseFloatChars s.toList).getD (.finite 0)
      | _ => .finite 0)
  | _, v =>
    .pyStr (match v with
      | .pyNone => ""
      | v => pyStrOf v)

/-- One spec-side replacement (§4.1's replacement policy): for numeric kinds
replace the quoted token `"name"` by the unquoted numeric literal; for
textual kinds replace the bare token `name` by the unescaped string value. -/
def specStep (inputValues : List (String × PyVal)) (s : String)
    (p : String × FieldSpec) : String :=
  let value := specCoerce p.2.kind ((dictGet? inputValues p.1).getD p.2.defaultValue)
  if p.2.kind.isNumeric then
    pyReplace s ("\"" ++ p.1 ++ "\"") (pyStrOf value)
  else
    pyReplace s p.1 (pyStrOf value)

/-- Spec-side substitution, written from §4.1's words: serialize the template,
iterate the FieldSpecs in order resolving input value or default, coerce by
kind, apply the asymmetric replacement policy, then deserialize — a failure
is `MalformedTemplateError` carrying the parse error detail (the `.error`
value here). -/
def substituteSpec (template : PyVal) (fieldSpecs : List (String × FieldSpec))
    (inputValues : List (String × PyVal)) : Except String PyVal :=
  pyJsonLoads (fieldSpecs.foldl (specStep inputValues) (pyJsonDumps template))

/-- The field kind denoted by a `type` tag of the code's field-config dicts. -/
def kindOfTag (t : String) : Option FieldKind :=
  if t = "text" then some .text
  else if t = "number" then some .number
  else if t = "float" then some .float
  else if t = "select" then some .select
  else if t = "textarea" then some .textarea
  else Option.none

/-- Interpretation of one of the code's field-config dicts as a FieldSpec:
`type` defaults to `text` and `defaultValue` to `''`, exactly as the code's
`.get` calls read them. -/
def interpConfig (fc : List (String × PyVal)) : Option FieldSpec :=
  match (dictGet? fc "type").getD (.pyStr "text") with
  | .pyStr t =>
    (kindOfTag t).map (fun k =>
      { kind := k, defaultValue := (dictGet? fc "defaultValue").getD (.pyStr "") })
  | _ => Option.none

/-- Interpretation of a whole field-config mapping. -/
def interpConfigs : List (String × List (String × PyVal)) →
    Option (List (String × FieldSpec))
  | [] => some []
  | (n, fc) :: rest =>
    match interpConfig fc, interpConfigs rest with
    | some sp, some sps => some ((n, sp) :: sps)
    | _, _ => Option.none

/-- Well-formed resolved value for a kind: numbers accept strings or ints,
floats accept strings, ints or floats, textual kinds accept strings.  (These
are the shapes on which §4.1's description is meaningful.) -/
def WFValue : FieldKind → PyVal → Bool
  | .number, .pyStr _ => true
  | .number, .pyInt _ => true
  | .number, _ => false
  | .float, .pyStr _ => true
  | .float, .pyInt _ => true
  | .float, .pyFloat _ => true
  | .float, _ => false
  | _, .pyStr _ => true
  | _, _ => false

lemma numericTag_eq (k : FieldKind) (t : String) (hk : kindOfTag t = some k) :
    (isStrEq (.pyStr t) "number" || isStrEq (.pyStr t) "float") = k.isNumeric := by
  unfold kindOfTag at hk
  split_ifs at hk with h1 h2 h3 h4 h5
  · obtain rfl := Option.some.inj hk
    subst h1
    decide
  · obtain rfl := Option.some.inj hk
    subst h2
    decide
  · obtain rfl := Option.some.inj hk
    subst h3
    decide
  · obtain rfl := Option.some.inj hk
    subst h4
    decide
  · obtain rfl := Option.some.inj hk
    subst h5
    decide

lemma coerce_eq_spec (k : FieldKind) (t : String) (hk : kindOfTag t = some k)
    (v : PyVal) (hw : WFValue k v = true) :
    coerceValue (.pyStr t) v = .ok (specCoerce k v) := by
  unfold kindOfTag at hk
  split_ifs at hk with h1 h2 h3 h4 h5
  · obtain rfl := Option.some.inj hk
    subst h1
    cases v <;> simp_all [coerceValue, specCoerce, isStrEq, WFValue, pyStrOf]
  · obtain rfl := Option.some.inj hk
    subst h2
    cases v with
    | pyStr s0 =>
      by_cases hs : s0 = "" <;>
        simp_all [coerceValue, specCoerce, isStrEq, pyTruthy, pyIntOf]
    | pyInt n =>
      by_cases hn : n = 0 <;>
        simp_all [coerceValue, specCoerce, isStrEq, pyTruthy, pyIntOf]
    | _ => simp_all [WFValue]
  · obtain rfl := Option.some.inj hk
    subst h3
    cases v with
    | pyStr s0 =>
      by_cases hs : s0 = "" <;>
        simp_all [coerceValue, specCoerce, isStrEq, pyTruthy, pyFloatOf]
    | pyInt n =>
      by_cases hn : n = 0 <;>
        simp_all [coerceValue, specCoerce, isStrEq, pyTruthy, pyFloatOf]
    | pyFloat f =>
      cases f with
      | finite q =>
        by_cases hq : q = 0 <;>
          simp_all [coerceValue, specCoerce, isStrEq, pyTruthy, pyFloatOf]
      | posInf => simp_all [coerceValue, specCoerce, isStrEq, pyTruthy, pyFloatOf]
      | negInf => simp_all [coerceValue, specCoerce, isStrEq, pyTruthy, pyFloatOf]
      | nan => simp_all [coerceValue, specCoerce, isStrEq, pyTruthy, pyFloatOf]
    | _ => simp_all [WFValue]
  · obtain rfl := Option.some.inj hk
    subst h4
    cases v <;> simp_all [coerceValue, specCoerce, isStrEq, WFValue, pyStrOf]
  · obtain rfl := Option.some.inj hk
    subst h5
    cases v <;> simp_all [coerceValue, specCoerce, isStrEq, WFValue, pyStrOf]

lemma replaceStep1_eq_specStep (iv : List (String × PyVal)) (s : String)
    (name : String) (fc : List (String × PyVal)) (sp : FieldSpec)
    (hi : interpConfig fc = some sp)
    (hw : WFValue sp.kind ((dictGet? iv name).getD sp.defaultValue) = true) :
    replaceStep1 iv s (name, fc) = .ok (specStep iv s (name, sp)) := by
  unfold interpConfig at hi
  rcases hft : (dictGet? fc "type").getD (.pyStr "text") with _ | b | n | f | t | xs | kvs
  · rw [hft] at hi
    simp at hi
  · rw [hft] at hi
    simp at hi
  · rw [hft] at hi
    simp at hi
  · rw [hft] at hi
    simp at hi
  · rw [hft] at hi
    obtain ⟨k, hk, hsp⟩ := Option.map_eq_some'.mp hi
    subst hsp
    simp only at hw
    simp only [replaceStep1, hft]
    rw [coerce_eq_spec k t hk _ hw]
    simp only [Except.map]
    rw [numericTag_eq k t hk]
    rfl
  · rw [hft] at hi
    simp at hi
  · rw [hft] at hi
    simp at hi

lemma substText_eq_spec (iv : List (String × PyVal)) :
    ∀ (fcs : List (String × List (String × PyVal)))
      (specs : List (String × FieldSpec)) (t : String),
      interpConfigs fcs = some specs →
      (∀ p ∈ specs, WFValue p.2.kind ((dictGet? iv p.1).getD p.2.defaultValue) = true) →
      fcs.foldl (fun (acc : Except PyExc String) pf =>
          acc.bind (fun s => replaceStep1 iv s pf)) (Except.ok t)
        = .ok (specs.foldl (specStep iv) t) := by
  intro fcs
  induction fcs with
  | nil =>
    intro specs t hi _
    simp only [interpConfigs, Option.some.injEq] at hi
    subst hi
    rfl
  | cons hd rest ih =>
    obtain ⟨n, fc⟩ := hd
    intro specs t hi hw
    unfold interpConfigs at hi
    rcases hc : interpConfig fc with _ | sp
    · rw [hc] at hi
      simp at hi
    · rcases hr : interpConfigs rest with _ | sps
      · rw [hc, hr] at hi
        simp at hi
      · rw [hc, hr] at hi
        simp only [Option.some.injEq] at hi
        subst hi
        simp only [List.foldl_cons]
        have hbind : (Except.ok t).bind (fun s => replaceStep1 iv s (n, fc)) =
            replaceStep1 iv t (n, fc) := rfl
        rw [hbind, replaceStep1_eq_specStep iv t n fc sp hc (hw (n, sp) (by simp))]
        exact ih sps _ hr (fun p hp => hw p (by simp [hp]))

/-- The §8 example template `{"seed": "SEED_PLACEHOLDER", "prompt": "PROMPT_PLACEHOLDER"}`. -/
def sampleTemplate : PyVal :=
  .pyDict [("seed", .pyStr "SEED_PLACEHOLDER"), ("prompt", .pyStr "PROMPT_PLACEHOLDER")]

/-- The §8 example field specs, in the code's field-config encoding. -/
def sampleFieldConfigs : List (String × List (String × PyVal)) :=
  [("SEED_PLACEHOLDER", [("type", .pyStr "number"), ("defaultValue", .pyInt 0)]),
   ("PROMPT_PLACEHOLDER", [("type", .pyStr "text"), ("defaultValue", .pyStr "")])]

/-- The §8 example field specs, in the spec's FieldSpec vocabulary. -/
def sampleFieldSpecs : List (String × FieldSpec) :=
  [("SEED_PLACEHOLDER", { kind := .number, defaultValue := .pyInt 0 }),
   ("PROMPT_PLACEHOLDER", { kind := .text, defaultValue := .pyStr "" })]

/-- The §8 example input values `{SEED_PLACEHOLDER: 42}`. -/
def sampleInputValues : List (String × PyVal) := [("SEED_PLACEHOLDER", .pyInt 42)]

/-- Claim C3: placeholder substitution replaces, for numeric kinds, the
quoted token `"name"` by the unquoted numeric literal and, for textual kinds,
every bare occurrence of `name` by the unescaped string value — proved as a
refinement: on well-formed field configurations and resolved values,
`replace_placeholders` coincides with the spec-worded `substituteSpec`
(§4.1's serialize / coerce-by-kind / asymmetric-replace / deserialize
pipeline), with a parse failure mapped to the 400 error; and on the §8
example the output is `{"seed": 42, "prompt": ""}` with an unquoted 42. -/
theorem C3_substitution_policy :
    (∀ (workflow_data : PyVal)
       (field_configs : List (String × List (String × PyVal)))
       (input_values : List (String × PyVal)) (specs : List (String × FieldSpec)),
       interpConfigs field_configs = some specs →
       (∀ p ∈ specs,
         WFValue p.2.kind ((dictGet? input_values p.1).getD p.2.defaultValue) = true) →
       replace_placeholders workflow_data field_configs input_values =
         (substituteSpec workflow_data specs input_values).mapError
           (fun e => PyExc.http 400 ("Failed to process workflow data: " ++ e))) ∧
    replace_placeholders sampleTemplate sampleFieldConfigs sampleInputValues =
      .ok (.pyDict [("seed", .pyInt 42), ("prompt", .pyStr "")]) := by
  constructor
  · intro wd fcs iv specs hi hw
    unfold replace_placeholders substitutedText substituteSpec
    rw [substText_eq_spec iv fcs specs (pyJsonDumps wd) hi hw]
    cases h : pyJsonLoads (List.foldl (specStep iv) (pyJsonDumps wd) specs) <;>
      simp [h, Except.mapError]
  · rfl

/-- Witness for C3 at the §8 example. -/
theorem C3_substitution_policy_witness :
    replace_placeholders sampleTemplate sampleFieldConfigs sampleInputValues =
      (substituteSpec sampleTemplate sampleFieldSpecs sampleInputValues).mapError
        (fun e => PyExc.http 400 ("Failed to process workflow data: " ++ e)) ∧
    replace_placeholders sampleTemplate sampleFieldConfigs sampleInputValues =
      .ok (.pyDict [("seed", .pyInt 42), ("prompt", .pyStr "")]) :=
  ⟨C3_substitution_policy.1 sampleTemplate sampleFieldConfigs sampleInputValues
      sampleFieldSpecs (by rfl)
      (by
        intro p hp
        simp only [sampleFieldSpecs, List.mem_cons, List.not_mem_nil, or_false] at hp
        rcases hp with rfl | rfl <;> rfl),
   C3_substitution_policy.2⟩

/-- Claim C4: for a `number` field an empty or non-numeric string is coerced
to the integer 0, and for a `float` field to 0.0; otherwise the string is
parsed to the corresponding integer / floating-point value. -/
theorem C4_numeric_coercion :
    ∀ s : String,
      ((s = "" ∨ pyParseIntChars s.toList = Option.none) →
        coerceValue (.pyStr "number") (.pyStr s) = .ok (.pyInt 0)) ∧
      (∀ n : Int, pyParseIntChars s.toList = some n →
        coerceValue (.pyStr "number") (.pyStr s) = .ok (.pyInt n)) ∧
      ((s = "" ∨ pyParseFloatChars s.toList = Option.none) →
        coerceValue (.pyStr "float") (.pyStr s) = .ok (.pyFloat (.finite 0))) ∧
      (∀ f : PyFloat, pyParseFloatChars s.toList = some f →
        coerceValue (.pyStr "float") (.pyStr s) = .ok (.pyFloat f)) := by
  intro s
  refine ⟨?_, ?_, ?_, ?_⟩
  · rintro (rfl | hn)
    · rfl
    · by_cases hs : s = ""
      · subst hs
        rfl
      · simp only [String.toList] at hn
        simp [coerceValue, isStrEq, pyTruthy, pyIntOf, hs, hn]
  · intro n hn
    by_cases hs : s = ""
    · subst hs
      simp only [show ("" : String).toList = ([] : List Char) from rfl,
        show pyParseIntChars ([] : List Char) = Option.none from rfl] at hn
      exact Option.noConfusion hn
    · simp only [String.toList] at hn
      simp [coerceValue, isStrEq, pyTruthy, pyIntOf, hs, hn]
  · rintro (rfl | hn)
    · rfl
    · by_cases hs : s = ""
      · subst hs
        rfl
      · simp only [String.toList] at hn
        simp [coerceValue, isStrEq, pyTruthy, pyFloatOf, hs, hn]
  · intro f hn
    by_cases hs : s = ""
    · subst hs
      simp only [show ("" : String).toList = ([] : List Char) from rfl,
        show pyParseFloatChars ([] : List Char) = Option.none from rfl] at hn
      exact Option.noConfusion hn
    · simp only [String.toList] at hn
      simp [coerceValue, isStrEq, pyTruthy, pyFloatOf, hs, hn]

/-- Witness for C4 at concrete strings. -/
theorem C4_numeric_coercion_witness :
    coerceValue (.pyStr "number") (.pyStr "") = .ok (.pyInt 0) ∧
    coerceValue (.pyStr "number") (.pyStr "abc") = .ok (.pyInt 0) ∧
    coerceValue (.pyStr "number") (.pyStr "42") = .ok (.pyInt 42) ∧
    coerceValue (.pyStr "float") (.pyStr "xy") = .ok (.pyFloat (.finite 0)) :=
  ⟨(C4_numeric_coercion "").1 (Or.inl rfl),
   (C4_numeric_coercion "abc").1 (Or.inr (by rfl)),
   (C4_numeric_coercion "42").2.1 42 (by rfl),
   (C4_numeric_coercion "xy").2.2.1 (Or.inr (by rfl))⟩

/-- Claim C8: when the substituted text fails to deserialize, substitution
fails with the 400 `MalformedTemplateError` (`HTTPException(400, ...)`)
carrying the parse error detail, rather than returning a document. -/
theorem C8_malformed_template (workflow_data : PyVal)
    (field_configs : List (String × List (String × PyVal)))
    (input_values : List (String × PyVal)) (t e : String)
    (hs : substitutedText workflow_data field_configs input_values = .ok t)
    (he : pyJsonLoads t = .error e) :
    replace_placeholders workflow_data field_configs input_values =
      .error (.http 400 ("Failed to process workflow data: " ++ e)) := by
  unfold replace_placeholders
  rw [hs]
  dsimp only
  rw [he]

/-- Witness for C8: a text field whose value is a double quote corrupts the
serialized document (`{"a": """}`), and substitution raises the 400. -/
theorem C8_malformed_template_witness :
    replace_placeholders (.pyDict [("a", .pyStr "P")])
        [("P", [("type", .pyStr "text")])] [("P", .pyStr "\"")] =
      .error (.http 400 ("Failed to process workflow data: " ++ "Expecting value")) :=
  C8_malformed_template (.pyDict [("a", .pyStr "P")])
    [("P", [("type", .pyStr "text")])] [("P", .pyStr "\"")]
    "\x7b\"a\": \"\"\"\x7d" "Expecting value" (by rfl) (by rfl)

lemma find?_map_update (l : List ExecutionRec) (eid : Nat)
    (f : ExecutionRec → ExecutionRec) (e : ExecutionRec)
    (hf : ∀ x, (f x).id = x.id)
    (he : l.find? (fun x => x.id == eid) = some e) :
    (l.map (fun x => if x.id == eid then f x else x)).find? (fun x => x.id == eid)
      = some (f e) := by
  induction l with
  | nil => simp at he
  | cons a l ih =>
    cases ha : (a.id == eid) with
    | true =>
      simp only [List.find?_cons, ha] at he
      obtain rfl : a = e := Option.some.inj he
      have hfa : ((f a).id == eid) = true := by
        rw [hf a]
        exact ha
      simp only [List.map_cons, if_pos ha, List.find?_cons, hfa]
    | false =>
      simp only [List.find?_cons, ha] at he
      simp only [List.map_cons, ha, List.find?_cons]
      simp only [Bool.false_eq_true, if_false, ha]
      exact ih he

/-- A store holding exactly one execution record, in terminal state
`"failed"`. -/
def c1db : DBState :=
  { executions := [{ id := 7, workflow_id := 1, user_id := 1, status := "failed" }],
    nextExecutionId := 8 }

/-- Counterexample to claim C1 as stated: the single record is terminal
(`"failed"`), yet delivering a completion callback changes its status to
`"completed"` — the transition attempt is not a no-op on terminal records. -/
theorem C1_counterexample :
    c1db.executions.map (fun e => e.status) = ["failed"] ∧
    "failed" ∈ terminalStatuses ∧
    (callback 7 (some []) c1db 5).1.executions.map (fun e => e.status) = ["completed"] ∧
    "completed" ≠ "failed" :=
  ⟨rfl, by decide, rfl, by decide⟩

/-- Claim C1 (amended): delivering a completion callback to a record in a
terminal state does not raise — the endpoint answers with the success body —
but the transition is re-applied rather than skipped: the status is
unconditionally overwritten to `"completed"` (with `completed_at`
refreshed), so the status is left unchanged only when it already was
`"completed"`. -/
theorem C1_terminal_callback_overwrites (db : DBState) (eid now : Nat)
    (req : Option (List (List (String × PyVal)))) (e : ExecutionRec)
    (he : db.executions.find? (fun x => x.id == eid) = some e)
    (ht : e.status ∈ terminalStatuses) :
    (∃ resp, (callback eid req db now).2 = .ok resp) ∧
    (callback eid req db now).1.executions.find? (fun x => x.id == eid) =
      some { e with status := "completed", completed_at := some now } ∧
    (e.status = "completed" →
      ((callback eid req db now).1.executions.find? (fun x => x.id == eid)).map
        (fun x => x.status) = some e.status) := by
  have hterm := ht
  simp only [callback, he]
  refine ⟨⟨_, rfl⟩, ?_, ?_⟩
  · exact find?_map_update db.executions eid
      (fun x => { x with status := "completed", completed_at := some now }) e
      (fun x => rfl) he
  · intro hc
    rw [find?_map_update db.executions eid
      (fun x => { x with status := "completed", completed_at := some now }) e
      (fun x => rfl) he]
    simp [hc]

/-- Witness for C1 (amended) at the concrete `"failed"` record. -/
theorem C1_terminal_callback_overwrites_witness :
    (∃ resp, (callback 7 (some []) c1db 5).2 = .ok resp) ∧
    (callback 7 (some []) c1db 5).1.executions.find? (fun x => x.id == 7) =
      some { id := 7, workflow_id := 1, user_id := 1, status := "completed",
             completed_at := some 5 } ∧
    ("failed" = "completed" →
      ((callback 7 (some []) c1db 5).1.executions.find? (fun x => x.id == 7)).map
        (fun x => x.status) = some "failed") :=
  C1_terminal_callback_overwrites c1db 7 5 (some [])
    { id := 7, workflow_id := 1, user_id := 1, status := "failed" }
    (by rfl) (by decide)

/-- Claim C7: a callback whose `execution_id` matches no ExecutionRecord
fails with the 404 `NotFoundError` and leaves the store — in particular the
Artifact table — untouched; it does not silently succeed. -/
theorem C7_unknown_id (eid now : Nat)
    (req : Option (List (List (String × PyVal)))) (db : DBState)
    (h : db.executions.find? (fun e => e.id == eid) = Option.none) :
    callback eid req db now =
      (db, .error (.http 404 ("Execution ID " ++ toString eid ++
        "를 찾을 수 없습니다."))) := by
  unfold callback
  rw [h]

/-- Witness for C7: `receiveCompletion(999999, [...])` on the empty store. -/
theorem C7_unknown_id_witness :
    callback 999999 (some [[("image", .pyStr "u")]]) {} 0 =
      ({}, .error (.http 404 ("Execution ID " ++ toString 999999 ++
        "를 찾을 수 없습니다."))) :=
  C7_unknown_id 999999 0 (some [[("image", .pyStr "u")]]) {} (by rfl)

/-- Claim C10: a callback delivered to an existing record with `n` images
appends exactly `n` Asset rows — the `i`-th new row belonging to that
execution and carrying `image.get("image")`, which is null exactly when the
element has no `"image"` key — and the success body reports
`images_count = assets_added = n`. -/
theorem C10_artifact_rows (db : DBState) (eid now : Nat)
    (imgs : List (List (String × PyVal))) (e : ExecutionRec)
    (he : db.executions.find? (fun x => x.id == eid) = some e) :
    (callback eid (some imgs) db now).1.assets.length =
      db.assets.length + imgs.length ∧
    (∀ i img, imgs[i]? = some img →
      ((callback eid (some imgs) db now).1.assets)[db.assets.length + i]? =
        some { id := db.nextAssetId + i, execution_id := eid,
               image_url := dictGet? img "image" }) ∧
    (∀ img : List (String × PyVal), (∀ p ∈ img, p.1 ≠ "image") →
      dictGet? img "image" = Option.none) ∧
    (∃ resp, (callback eid (some imgs) db now).2 = .ok resp ∧
      resp.images_count = imgs.length ∧ resp.assets_added = imgs.length) := by
  simp only [callback, he]
  refine ⟨?_, ?_, ?_, ⟨_, rfl, rfl, rfl⟩⟩
  · simp
  · intro i img hi
    rw [List.getElem?_append_right (by omega)]
    have hsub : db.assets.length + i - db.assets.length = i := by omega
    rw [hsub, List.getElem?_map, List.getElem?_enum]
    simp only [Option.getD_some]
    rw [hi]
    rfl
  · intro img h
    unfold dictGet?
    rw [List.find?_eq_none.mpr]
    · rfl
    · intro p hp
      simp [h p hp]

/-- A store holding one pending execution record with id 3. -/
def c10db : DBState :=
  { executions := [{ id := 3, workflow_id := 1, user_id := 2, status := "pending" }] }

/-- Two callback images: one with an `"image"` url, one without. -/
def c10imgs : List (List (String × PyVal)) :=
  [[("image", .pyStr "u1")], [("x", .pyInt 1)]]

/-- Witness for C10 at a two-image callback. -/
theorem C10_artifact_rows_witness :
    (callback 3 (some c10imgs) c10db 9).1.assets.length = c10db.assets.length + 2 ∧
    ((callback 3 (some c10imgs) c10db 9).1.assets)[c10db.assets.length + 1]? =
      some { id := c10db.nextAssetId + 1, execution_id := 3,
             image_url := dictGet? [("x", .pyInt 1)] "image" } ∧
    (∃ resp, (callback 3 (some c10imgs) c10db 9).2 = .ok resp ∧
      resp.images_count = 2 ∧ resp.assets_added = 2) := by
  have h := C10_artifact_rows c10db 3 9 c10imgs
    { id := 3, workflow_id := 1, user_id := 2, status := "pending" } (by rfl)
  exact ⟨h.1, h.2.1 1 [("x", .pyInt 1)] (by rfl), h.2.2.2⟩

lemma find?_map_append_fresh (l : List ExecutionRec) (nid : Nat) (x : ExecutionRec)
    (upd : ExecutionRec → ExecutionRec)
    (hupd : ∀ y, (upd y).id = y.id)
    (hx : (x.id == nid) = true)
    (hl : ∀ y ∈ l, (y.id == nid) = false) :
    ((l ++ [x]).map (fun y => if y.id == nid then upd y else y)).find?
        (fun y => y.id == nid) = some (upd x) := by
  induction l with
  | nil =>
    have hux : ((upd x).id == nid) = true := by
      rw [hupd x]
      exact hx
    simp only [List.nil_append, List.map_cons, List.map_nil, if_pos hx,
      List.find?_cons, hux]
  | cons a l ih =>
    have ha := hl a (List.mem_cons_self a l)
    simp only [List.cons_append, List.map_cons, ha, Bool.false_eq_true, if_false,
      List.find?_cons]
    exact ih (fun y hy => hl y (List.mem_cons_of_mem a hy))

/-- Claim C5: when the dispatch call to the external engine raises a network
error, the ExecutionRecord ends `failed`, with a non-empty `error_message`,
`completed_at` set, and no external job id (`comfyui_prompt_id` null); the
same failure is also returned to the synchronous caller as the 500 error with
detail — the dual-write. -/
theorem C5_dispatch_failure (db : DBState) (now : Nat) (client_id : String)
    (network : PyVal → String → Except String String)
    (execute_request : WorkflowExecuteRequest) (current_user : UserRec)
    (w : WorkflowRec) (processed wd2 : PyVal) (nerr : String)
    (hw : db.workflows.find? (fun x => x.id == execute_request.workflow_id) = some w)
    (hs : w.status = "OPEN")
    (hfresh : ∀ e ∈ db.executions, e.id ≠ db.nextExecutionId)
    (hrp : replace_placeholders w.workflow_data (w.input_fields.getD [])
        (execute_request.input_values.getD []) = .ok processed)
    (hload : pyJsonLoads (pyReplace (pyReplace (pyJsonDumps processed) "[uuid]" client_id)
        "[execution_id]" (toString db.nextExecutionId)) = .ok wd2)
    (hnet : network wd2 client_id = .error nerr) :
    (∃ erec : ExecutionRec,
      (execute_workflow_with_inputs execute_request current_user db now client_id
          network).1.executions.find? (fun x => x.id == db.nextExecutionId) = some erec ∧
      erec.status = "failed" ∧
      erec.error_message = some ("ComfyUI API 호출 실패: " ++ nerr) ∧
      erec.completed_at = some now ∧
      erec.comfyui_prompt_id = Option.none) ∧
    ("ComfyUI API 호출 실패: " ++ nerr) ≠ "" ∧
    (execute_workflow_with_inputs execute_request current_user db now client_id
        network).2 =
      .error (.http 500 ("Workflow execution failed: " ++
        ("ComfyUI API 호출 실패: " ++ nerr))) := by
  have hbne : (w.status != "OPEN") = false := by
    rw [hs]
    rfl
  simp only [execute_workflow_with_inputs, hw, hbne, Bool.false_eq_true, if_false,
    ComfyUIService.execute_workflow, hrp, hload, hnet, Except.bind, Except.map,
    pyStrExc]
  refine ⟨⟨{ id := db.nextExecutionId, workflow_id := execute_request.workflow_id,
             user_id := current_user.id, status := "failed",
             input_data := execute_request.input_values.map .pyDict,
             error_message := some ("ComfyUI API 호출 실패: " ++ nerr),
             started_at := some now, completed_at := some now },
           ?_, rfl, rfl, rfl, rfl⟩, ?_, trivial⟩
  · exact find?_map_append_fresh db.executions db.nextExecutionId _ _
      (fun y => rfl) (by simp) (fun y hy => by simp [hfresh y hy])
  · intro hcontra
    have h2 := congrArg String.length hcontra
    simp at h2
    exact absurd h2.1 (by decide)

/-- A store with a single `OPEN` workflow (id 1) whose template has no
placeholders. -/
def c5db : DBState :=
  { workflows := [{ id := 1, workflow_data := .pyDict [("g", .pyStr "x")],
                    input_fields := some [], status := "OPEN", user_id := 1 }] }

/-- Witness for C5: the engine call raises `"connection refused"`. -/
theorem C5_dispatch_failure_witness :
    (∃ erec : ExecutionRec,
      (execute_workflow_with_inputs { workflow_id := 1, input_values := some [] }
          { id := 2, role := "user" } c5db 4 "cid"
          (fun _ _ => .error "connection refused")).1.executions.find?
          (fun x => x.id == c5db.nextExecutionId) = some erec ∧
      erec.status = "failed" ∧
      erec.error_message = some ("ComfyUI API 호출 실패: " ++ "connection refused") ∧
      erec.completed_at = some 4 ∧
      erec.comfyui_prompt_id = Option.none) ∧
    ("ComfyUI API 호출 실패: " ++ "connection refused") ≠ "" ∧
    (execute_workflow_with_inputs { workflow_id := 1, input_values := some [] }
        { id := 2, role := "user" } c5db 4 "cid"
        (fun _ _ => .error "connection refused")).2 =
      .error (.http 500 ("Workflow execution failed: " ++
        ("ComfyUI API 호출 실패: " ++ "connection refused"))) :=
  C5_dispatch_failure c5db 4 "cid" (fun _ _ => .error "connection refused")
    { workflow_id := 1, input_values := some [] } { id := 2, role := "user" }
    { id := 1, workflow_data := .pyDict [("g", .pyStr "x")],
      input_fields := some [], status := "OPEN", user_id := 1 }
    (.pyDict [("g", .pyStr "x")]) (.pyDict [("g", .pyStr "x")]) "connection refused"
    (by rfl) (by rfl) (by simp [c5db]) (by rfl) (by rfl) (by rfl)

/-- Claim C6: when dispatch succeeds, the ExecutionRecord's external job id
(`comfyui_prompt_id`) is set to the engine-assigned `prompt_id` and the
status remains `pending`; the synchronous execute path never itself sets the
status to `completed`. -/
theorem C6_dispatch_success (db : DBState) (now : Nat) (client_id : String)
    (network : PyVal → String → Except String String)
    (execute_request : WorkflowExecuteRequest) (current_user : UserRec)
    (w : WorkflowRec) (processed wd2 : PyVal) (pid : String)
    (hw : db.workflows.find? (fun x => x.id == execute_request.workflow_id) = some w)
    (hs : w.status = "OPEN")
    (hfresh : ∀ e ∈ db.executions, e.id ≠ db.nextExecutionId)
    (hrp : replace_placeholders w.workflow_data (w.input_fields.getD [])
        (execute_request.input_values.getD []) = .ok processed)
    (hload : pyJsonLoads (pyReplace (pyReplace (pyJsonDumps processed) "[uuid]" client_id)
        "[execution_id]" (toString db.nextExecutionId)) = .ok wd2)
    (hnet : network wd2 client_id = .ok pid)
    (hpid : pid ≠ "") :
    (∃ erec : ExecutionRec,
      (execute_workflow_with_inputs execute_request current_user db now client_id
          network).1.executions.find? (fun x => x.id == db.nextExecutionId) = some erec ∧
      erec.status = "pending" ∧
      erec.comfyui_prompt_id = some (.pyStr pid) ∧
      erec.status ≠ "completed") ∧
    (∃ resp, (execute_workflow_with_inputs execute_request current_user db now client_id
        network).2 = .ok resp ∧ resp.status = "pending") := by
  have hbne : (w.status != "OPEN") = false := by
    rw [hs]
    rfl
  have hbne2 : (pid != "") = true := by
    simp [hpid]
  simp only [execute_workflow_with_inputs, hw, hbne, Bool.false_eq_true, if_false,
    ComfyUIService.execute_workflow, hrp, hload, hnet, Except.bind, Except.map,
    pyValGet, dictGet?, List.find?_cons, pyStrOf, pyTruthy, isStrEq, hbne2]
  simp only [show ("status" == "status") = true from rfl,
    show ("prompt_id" == "prompt_id") = true from rfl,
    show ("status" == "prompt_id") = false from rfl,
    show ("pending" == "failed") = false from rfl,
    show ("pending" == "timeout") = false from rfl,
    Option.map_some', Option.getD_some, Bool.false_eq_true, if_false, if_true,
    Bool.or_self, hbne2]
  refine ⟨⟨{ id := db.nextExecutionId, workflow_id := execute_request.workflow_id,
             user_id := current_user.id, status := "pending",
             input_data := execute_request.input_values.map .pyDict,
             comfyui_prompt_id := some (.pyStr pid),
             output_data := some (.pyDict [("status", .pyStr "pending"),
               ("prompt_id", .pyStr pid),
               ("execution_id", .pyInt (db.nextExecutionId : Int)),
               ("message", .pyStr "워크플로우 실행 요청하였습니다.")]),
             started_at := some now, completed_at := some now },
           ?_, rfl, rfl, (show ("pending" : String) ≠ "completed" by decide)⟩,
           ⟨_, rfl, rfl⟩⟩
  apply find?_map_append_fresh
  · exact fun y => rfl
  · simp
  · intro y hy
    simp [hfresh y hy]

/-- A store with a single `OPEN` workflow (id 1), for the C6 witness. -/
def c6db : DBState :=
  { workflows := [{ id := 1, workflow_data := .pyDict [("g", .pyStr "x")],
                    input_fields := some [], status := "OPEN", user_id := 1 }] }

/-- Witness for C6: the engine assigns prompt id `"p123"`. -/
theorem C6_dispatch_success_witness :
    (∃ erec : ExecutionRec,
      (execute_workflow_with_inputs { workflow_id := 1, input_values := some [] }
          { id := 2, role := "user" } c6db 4 "cid"
          (fun _ _ => .ok "p123")).1.executions.find?
          (fun x => x.id == c6db.nextExecutionId) = some erec ∧
      erec.status = "pending" ∧
      erec.comfyui_prompt_id = some (.pyStr "p123") ∧
      erec.status ≠ "completed") ∧
    (∃ resp, (execute_workflow_with_inputs { workflow_id := 1, input_values := some [] }
        { id := 2, role := "user" } c6db 4 "cid"
        (fun _ _ => .ok "p123")).2 = .ok resp ∧ resp.status = "pending") :=
  C6_dispatch_success c6db 4 "cid" (fun _ _ => .ok "p123")
    { workflow_id := 1, input_values := some [] } { id := 2, role := "user" }
    { id := 1, workflow_data := .pyDict [("g", .pyStr "x")],
      input_fields := some [], status := "OPEN", user_id := 1 }
    (.pyDict [("g", .pyStr "x")]) (.pyDict [("g", .pyStr "x")]) "p123"
    (by rfl) (by rfl) (by simp [c6db]) (by rfl) (by rfl) (by rfl) (by decide)

/-- Claim C9: when dispatch succeeds, the execute path also sets
`completed_at` to the current time even though the status remains `pending`
— so a non-null `completed_at` does not imply a terminal record. -/
theorem C9_completed_at_on_pending (db : DBState) (now : Nat) (client_id : String)
    (network : PyVal → String → Except String String)
    (execute_request : WorkflowExecuteRequest) (current_user : UserRec)
    (w : WorkflowRec) (processed wd2 : PyVal) (pid : String)
    (hw : db.workflows.find? (fun x => x.id == execute_request.workflow_id) = some w)
    (hs : w.status = "OPEN")
    (hfresh : ∀ e ∈ db.executions, e.id ≠ db.nextExecutionId)
    (hrp : replace_placeholders w.workflow_data (w.input_fields.getD [])
        (execute_request.input_values.getD []) = .ok processed)
    (hload : pyJsonLoads (pyReplace (pyReplace (pyJsonDumps processed) "[uuid]" client_id)
        "[execution_id]" (toString db.nextExecutionId)) = .ok wd2)
    (hnet : network wd2 client_id = .ok pid)
    (hpid : pid ≠ "") :
    (∃ erec : ExecutionRec,
      (execute_workflow_with_inputs execute_request current_user db now client_id
          network).1.executions.find? (fun x => x.id == db.nextExecutionId) = some erec ∧
      erec.completed_at = some now ∧
      erec.status = "pending") ∧
    ¬ ("pending" ∈ terminalStatuses) := by
  have hbne : (w.status != "OPEN") = false := by
    rw [hs]
    rfl
  have hbne2 : (pid != "") = true := by
    simp [hpid]
  simp only [execute_workflow_with_inputs, hw, hbne, Bool.false_eq_true, if_false,
    ComfyUIService.execute_workflow, hrp, hload, hnet, Except.bind, Except.map,
    pyValGet, dictGet?, List.find?_cons, pyStrOf, pyTruthy, isStrEq, hbne2]
  simp only [show ("status" == "status") = true from rfl,
    show ("prompt_id" == "prompt_id") = true from rfl,
    show ("status" == "prompt_id") = false from rfl,
    show ("pending" == "failed") = false from rfl,
    show ("pending" == "timeout") = false from rfl,
    Option.map_some', Option.getD_some, Bool.false_eq_true, if_false, if_true,
    Bool.or_self, hbne2]
  refine ⟨⟨{ id := db.nextExecutionId, workflow_id := execute_request.workflow_id,
             user_id := current_user.id, status := "pending",
             input_data := execute_request.input_values.map .pyDict,
             comfyui_prompt_id := some (.pyStr pid),
             output_data := some (.pyDict [("status", .pyStr "pending"),
               ("prompt_id", .pyStr pid),
               ("execution_id", .pyInt (db.nextExecutionId : Int)),
               ("message", .pyStr "워크플로우 실행 요청하였습니다.")]),
             started_at := some now, completed_at := some now },
           ?_, rfl, rfl⟩, by decide⟩
  apply find?_map_append_fresh
  · exact fun y => rfl
  · simp
  · intro y hy
    simp [hfresh y hy]

/-- A store with a single `OPEN` workflow (id 1), for the C9 witness. -/
def c9db : DBState :=
  { workflows := [{ id := 1, workflow_data := .pyDict [("g", .pyStr "x")],
                    input_fields := some [], status := "OPEN", user_id := 1 }] }

/-- Witness for C9. -/
theorem C9_completed_at_on_pending_witness :
    (∃ erec : ExecutionRec,
      (execute_workflow_with_inputs { workflow_id := 1, input_values := some [] }
          { id := 2, role := "user" } c9db 4 "cid"
          (fun _ _ => .ok "p9")).1.executions.find?
          (fun x => x.id == c9db.nextExecutionId) = some erec ∧
      erec.completed_at = some 4 ∧
      erec.status = "pending") ∧
    ¬ ("pending" ∈ terminalStatuses) :=
  C9_completed_at_on_pending c9db 4 "cid" (fun _ _ => .ok "p9")
    { workflow_id := 1, input_values := some [] } { id := 2, role := "user" }
    { id := 1, workflow_data := .pyDict [("g", .pyStr "x")],
      input_fields := some [], status := "OPEN", user_id := 1 }
    (.pyDict [("g", .pyStr "x")]) (.pyDict [("g", .pyStr "x")]) "p9"
    (by rfl) (by rfl) (by simp [c9db]) (by rfl) (by rfl) (by rfl) (by decide)

/-- A store holding one unpublished (`WAIT`) workflow, id 1, owned by user 2. -/
def c2db : DBState :=
  { workflows := [{ id := 1, workflow_data := .pyDict [], input_fields := some [],
                    status := "WAIT", user_id := 2 }] }

/-- Claim C2 (code bug): a non-owner, non-admin requester (user 3, role
`"user"`) executing the unpublished workflow is not rejected with a 403 —
the guard `if workflow.status != "OPEN" and workflow.role == "user"`
dereferences the non-existent `Workflow.role` attribute, so the request
fails with `AttributeError` (surfaced as a 500) for every requester on a
non-`OPEN` workflow; no ExecutionRecord is created (the store is returned
unchanged, and it held no executions). -/
theorem C2_unpublished_execute_attribute_error :
    execute_workflow_with_inputs { workflow_id := 1, input_values := some [] }
        { id := 3, role := "user" } c2db 0 "cid" (fun _ _ => .error "unused") =
      (c2db, .error (.attrError "'Workflow' object has no attribute 'role'")) ∧
    c2db.executions = [] :=
  ⟨rfl, rfl⟩

end CWB
